import Mathlib

/-!
A shallow embedding of the pg_repack client (`bin/pg_repack.c`) and proofs
about its protocol engine: the copy phase of `repack_one_table`, the log-drain
loop, the lock escalator `lock_exclusive`, the version probe and table
enumeration of `repack_one_database`, the cleanup hook `repack_cleanup`, and
the command-line post-processing in `main`.

Pure fragments of the C code become Lean functions; the statement streams the
client sends to the server become explicit `List Stmt` values, parameterized by
environments that stand for the server's replies (query results, error codes,
elapsed wall-clock time).  Machine integers are modelled as `Nat` (OIDs,
counts, seconds) since no claim depends on overflow behaviour.
-/

namespace PgRepack

/-- OIDs are 32-bit unsigned in the C code (`Oid`); modelled as `Nat`. -/
abbrev Oid := Nat

/-- `InvalidOid` is 0; `getoid` returns it for NULL columns. -/
def InvalidOid : Oid := 0

/-- The two database sessions of the spec's `SessionPair`.  The C client
issues every statement through the single global libpq handle `connection`
(see `command`, `execute`, `PQserverVersion(connection)` in the source), which
corresponds to `primary`; `secondary` exists in the model only so that each
emitted statement can be tagged with the session it runs on. -/
inductive Session
  | primary
  | secondary
  deriving DecidableEq, Repr

/-- One SQL statement issued to the server, tagged with its session. -/
structure Stmt where
  session : Session
  text : String
  deriving DecidableEq, Repr

/-- `repack_table`: the per-table information of one reorganization task,
exactly the fields of the C struct.  SQL fragments supplied by the server are
opaque strings; `drop_columns` may be NULL. -/
structure RepackTable where
  target_name : String
  target_oid : Oid
  target_toast : Oid
  target_tidx : Oid
  pkid : Oid
  ckid : Oid
  create_pktype : String
  create_log : String
  create_trigger : String
  enable_trigger : String
  create_table : String
  drop_columns : Option String
  delete_log : String
  lock_table : String
  sql_peek : String
  sql_insert : String
  sql_delete : String
  sql_update : String
  sql_pop : String
  deriving DecidableEq, Repr

/-- `APPLY_COUNT`: number of applied logs per transaction in the drain loop. -/
def APPLY_COUNT : Nat := 1000

/-- The `SQL_XID_SNAPSHOT` macro, concatenated exactly as in the source. -/
def SQL_XID_SNAPSHOT : String :=
  "SELECT repack.array_accum(virtualtransaction) FROM pg_locks" ++
  " WHERE locktype = \x27virtualxid\x27 AND pid <> pg_backend_pid()" ++
  " AND (virtualxid, virtualtransaction) <> (\x271/1\x27, \x27-1/0\x27)"

/-- The `SQL_XID_ALIVE` macro, concatenated exactly as in the source. -/
def SQL_XID_ALIVE : String :=
  "SELECT pid FROM pg_locks WHERE locktype = \x27virtualxid\x27" ++
  " AND pid <> pg_backend_pid() AND virtualtransaction = ANY($1)"

/-! ### Command-line front end (`main`, lines 128-163)

`pgut_getopt` fills the globals; `main` then rewrites `orderby` when
`--no-order` was given, and validates the argument combination. -/

/-- The option globals of the C file after `pgut_getopt`: `alldb`, `table`,
`noorder`, `orderby`.  A `none` string option models the NULL pointer
(option not given); `some ""` models an explicitly empty string. -/
structure CmdOptions where
  alldb : Bool
  tableArg : Option String
  noorder : Bool
  orderbyArg : Option String
  deriving DecidableEq, Repr

/-- `main` line 142-143: `if (noorder) orderby = "";` — the order-by string is
unconditionally replaced by the empty string when `--no-order` was given. -/
def effectiveOrderby (o : CmdOptions) : Option String :=
  if o.noorder then some "" else o.orderbyArg

/-- The argument validation of `main`: `extraArgs` is `argc - i`, the number
of positional arguments left after option parsing.  `main` errors on more
than one positional argument, and on `--all` combined with `--table`;
no other combination is rejected. -/
def mainValidate (extraArgs : Nat) (o : CmdOptions) : Except String Unit :=
  if extraArgs ≥ 2 then
    .error "too many arguments"
  else if o.alldb ∧ o.tableArg.isSome then
    .error "cannot repack a specific table in all databases"
  else
    .ok ()

/-! ### create_table post-processing (`repack_one_database`, lines 369-390)

The enumerated row's `create_table` fragment is rewritten according to the
mode before being stored into the job. -/

/-- The post-processing of the `create_table` fragment: `orderby = none`
models the NULL pointer (`!orderby`, CLUSTER mode), `some ""` models the
empty string (`!orderby[0]`, VACUUM FULL mode), otherwise user order.
`ckey` is the clustering-key fragment column, NULL modelled as `none`. -/
def makeCreateTable (target_name : String) (create_table : String)
    (ckey : Option String) (orderby : Option String) : Except String String :=
  match orderby with
  | none =>
    match ckey with
    | none => .error ("relation \x22" ++ target_name ++ "\x22 has no cluster key")
    | some k => .ok (create_table ++ " ORDER BY " ++ k)
  | some o =>
    if o = "" then .ok create_table
    else .ok (create_table ++ " ORDER BY " ++ o)

/-! ### Copy phase of `repack_one_table` (lines 506-534)

One SERIALIZABLE transaction: snapshot vxid capture, `delete_log`, the
post-processed `create_table`, optional `drop_columns`, autovacuum off on the
shadow table, COMMIT.  Every statement goes through the single connection. -/

/-- VACUUM FULL mode test of the source: `orderby && !orderby[0]`
(line 517): the pointer is non-NULL and points at an empty string. -/
def vacuumFullMode (orderby : Option String) : Bool :=
  orderby = some ""

/-- The statement sequence of the copy phase of `repack_one_table`
(lines 514-534), in source order.  `t.create_table` is already the
post-processed fragment stored by `repack_one_database`. -/
def copyPhase (t : RepackTable) (orderby : Option String) : List Stmt :=
  [⟨.primary, "BEGIN ISOLATION LEVEL SERIALIZABLE"⟩,
   ⟨.primary, "SELECT set_config(\x27work_mem\x27, current_setting(\x27maintenance_work_mem\x27), true)"⟩]
  ++ (if vacuumFullMode orderby then
        [⟨.primary, "SET LOCAL synchronize_seqscans = off"⟩] else [])
  ++ [⟨.primary, SQL_XID_SNAPSHOT⟩,
      ⟨.primary, t.delete_log⟩,
      ⟨.primary, t.create_table⟩]
  ++ (match t.drop_columns with
      | some d => [⟨.primary, d⟩]
      | none => [])
  ++ [⟨.primary, "SELECT repack.disable_autovacuum(\x27repack.table_" ++ toString t.target_oid ++ "\x27)"⟩,
      ⟨.primary, "COMMIT"⟩]

/-! ### Log-drain loop of `repack_one_table` (lines 582-618)

`apply_log(table, APPLY_COUNT)` and the `SQL_XID_ALIVE` poll are server
interactions; the environment gives their results per loop iteration. -/

/-- Server replies seen by the drain loop: `applyResult n` is the value
returned by `apply_log(table, APPLY_COUNT)` at the n-th iteration (a row
count, hence a `Nat`), and `aliveRows n` the list of pids returned by
`SQL_XID_ALIVE` when it is issued at the n-th iteration. -/
structure DrainEnv where
  applyResult : Nat → Nat
  aliveRows : Nat → List Nat

/-- Observable events of the drain loop. -/
inductive DrainEvent
  | applyBatch (result : Nat)
  | alivePoll (pids : List Nat)
  | notice (count : Nat) (firstPid : Nat)
  | sleepSec
  deriving DecidableEq, Repr

/-- The drain loop (`for (;;)` at line 582), fuel-bounded: returns the event
trace and, when the loop exited within `fuel` iterations, the index of the
exit iteration.  `numWaiting` is the C local `num_waiting` threaded through
for the NOTICE suppression. -/
def drainRun (env : DrainEnv) (numWaiting n : Nat) : Nat → List DrainEvent × Option Nat
  | 0 => ([], none)
  | fuel + 1 =>
    let a := env.applyResult n
    if a > 0 then
      let r := drainRun env numWaiting (n + 1) fuel
      (.applyBatch a :: r.1, r.2)
    else
      let pids := env.aliveRows n
      if pids.length > 0 then
        let notices : List DrainEvent :=
          if pids.length ≠ numWaiting then [.notice pids.length (pids.headD 0)] else []
        let r := drainRun env pids.length (n + 1) fuel
        (.applyBatch a :: .alivePoll pids :: notices ++ .sleepSec :: r.1, r.2)
      else
        ([.applyBatch a, .alivePoll pids], some n)

/-! ### Lock escalator `lock_exclusive` (lines 664-732)

Each attempt begins a READ COMMITTED transaction, possibly issues a cancel or
terminate query against blockers, sets a short statement timeout, and tries
the lock SQL.  Wall-clock time and the lock outcome come from the
environment. -/

/-- The termination query string of `lock_exclusive` (lines 687-690),
concatenated exactly as in the source. -/
def terminateQuery : String :=
  "SELECT pg_terminate_backend(pid) FROM pg_locks" ++
  " WHERE locktype = \x27relation\x27" ++
  "   AND relation = $1 AND pid <> pg_backend_pid()"

/-- The cancel query string of `lock_exclusive` (lines 695-698),
concatenated exactly as in the source. -/
def cancelQuery : String :=
  "SELECT pg_cancel_backend(pid) FROM pg_locks" ++
  " WHERE locktype = \x27relation\x27" ++
  "   AND relation = $1 AND pid <> pg_backend_pid()"

/-- Result of executing the lock SQL in one attempt: `commandOk`
(`PGRES_COMMAND_OK`), `canceled` (sqlstate 57014), or any other error with
the server's message. -/
inductive LockResult
  | commandOk
  | canceled
  | otherError (msg : String)
  deriving DecidableEq, Repr

/-- Environment of one `lock_exclusive` call: the server version seen by
`PQserverVersion`, the `wait_timeout` global (seconds, default 60),
`duration i` = `time(NULL) - start` observed at attempt `i` (1-based), and
`lockResult i` the outcome of the lock SQL at attempt `i`. -/
structure LockEnv where
  serverVersion : Nat
  waitTimeout : Nat
  duration : Nat → Nat
  lockResult : Nat → LockResult

/-- Lines 679-702: which backend-interruption query attempt `i` issues, if
any, given the observed duration: none unless `duration > wait_timeout`;
then terminate when `serverVersion ≥ 80400 && duration > wait_timeout * 2`,
else cancel. -/
def escalationQuery (env : LockEnv) (dur : Nat) : Option String :=
  if dur > env.waitTimeout then
    some (if env.serverVersion ≥ 80400 ∧ dur > env.waitTimeout * 2 then
            terminateQuery
          else
            cancelQuery)
  else
    none

/-- The `SET LOCAL statement_timeout` command of attempt `i`
(lines 705-707): `wait_msec = Min(1000, i * 100)`. -/
def setTimeoutStmt (i : Nat) : String :=
  "SET LOCAL statement_timeout = " ++ toString (min 1000 (i * 100))

/-- The statements issued by attempt `i` of `lock_exclusive`: BEGIN, the
optional cancel/terminate query, the statement-timeout command, the lock SQL,
and — only when the lock SQL failed with 57014 — the ROLLBACK of line 719.
All on the single (primary) connection. -/
def attemptTrace (env : LockEnv) (lock_query : String) (i : Nat) : List Stmt :=
  [⟨.primary, "BEGIN ISOLATION LEVEL READ COMMITTED"⟩]
  ++ (match escalationQuery env (env.duration i) with
      | some q => [⟨.primary, q⟩]
      | none => [])
  ++ [⟨.primary, setTimeoutStmt i⟩,
      ⟨.primary, lock_query⟩]
  ++ (match env.lockResult i with
      | .canceled => [⟨.primary, "ROLLBACK"⟩]
      | _ => [])

/-- Final state of a `lock_exclusive` call: the lock was acquired at some
attempt (the function returns, transaction open), or the process printed the
server error and exited with status 1. -/
inductive LockOutcome
  | locked (attempt : Nat)
  | exited (msg : String)
  deriving DecidableEq, Repr

/-- The retry loop of `lock_exclusive` starting at attempt `i`,
fuel-bounded: emits each attempt's trace; on `commandOk` breaks out and
issues `RESET statement_timeout` (line 731); on `canceled` continues with
attempt `i+1`; on any other error stops (models `exit(1)`). -/
def lockLoop (env : LockEnv) (lock_query : String) (i : Nat) :
    Nat → List Stmt × Option LockOutcome
  | 0 => ([], none)
  | fuel + 1 =>
    let tr := attemptTrace env lock_query i
    match env.lockResult i with
    | .commandOk => (tr ++ [⟨.primary, "RESET statement_timeout"⟩], some (.locked i))
    | .canceled =>
      let r := lockLoop env lock_query (i + 1) fuel
      (tr ++ r.1, r.2)
    | .otherError msg => (tr, some (.exited msg))

/-- `lock_exclusive` (line 664): the loop starts at `i = 1`. -/
def lock_exclusive (env : LockEnv) (lock_query : String) (fuel : Nat) :
    List Stmt × Option LockOutcome :=
  lockLoop env lock_query 1 fuel

/-! ### Cleanup hook `repack_cleanup` (lines 738-764) -/

/-- Connection state seen by the cleanup hook: whether the global
`connection` is non-NULL, and whether `PQstatus(connection)` is
`CONNECTION_OK`. -/
structure CleanupEnv where
  connected : Bool
  statusOk : Bool
  deriving DecidableEq, Repr

/-- The statements issued by `repack_cleanup`: nothing on the fatal path;
otherwise ROLLBACK when a connection exists (after a reconnect when the
status is bad, modelled only by its effect on the statement stream), then
the companion's drop call.  All on the single (primary) connection. -/
def repack_cleanup (fatal : Bool) (_t : RepackTable) (env : CleanupEnv) : List Stmt :=
  if fatal then []
  else
    (if env.connected then [⟨.primary, "ROLLBACK"⟩] else [])
    ++ [⟨.primary, "SELECT repack.repack_drop($1)"⟩]

/-! ### Semantics of the two `pg_locks` queries

`SQL_XID_SNAPSHOT` and `SQL_XID_ALIVE` are read as row filters over an
abstract `pg_locks` table.  A row is (pid, locktype, virtualxid,
virtualtransaction); `selfPid` is `pg_backend_pid()`. -/

/-- One row of `pg_locks`, restricted to the columns the two queries touch. -/
structure LockRow where
  pid : Nat
  locktype : String
  virtualxid : String
  virtualtransaction : String
  deriving DecidableEq, Repr

/-- Row filter of `SQL_XID_SNAPSHOT`: `locktype = 'virtualxid' AND
pid <> pg_backend_pid() AND (virtualxid, virtualtransaction) <>
('1/1', '-1/0')`. -/
def snapshotFilter (selfPid : Nat) (r : LockRow) : Bool :=
  r.locktype = "virtualxid" ∧ r.pid ≠ selfPid ∧
    ¬(r.virtualxid = "1/1" ∧ r.virtualtransaction = "-1/0")

/-- Result of `SQL_XID_SNAPSHOT`: the accumulated `virtualtransaction`
values of the rows passing `snapshotFilter`. -/
def xidSnapshotAccum (selfPid : Nat) (rows : List LockRow) : List String :=
  (rows.filter (snapshotFilter selfPid)).map (·.virtualtransaction)

/-- Row filter of `SQL_XID_ALIVE` with parameter `$1 = arr`: `locktype =
'virtualxid' AND pid <> pg_backend_pid() AND virtualtransaction = ANY($1)`.
Note: no clause about the pair `('1/1', '-1/0')` appears here. -/
def aliveFilter (selfPid : Nat) (arr : List String) (r : LockRow) : Bool :=
  r.locktype = "virtualxid" ∧ r.pid ≠ selfPid ∧ r.virtualtransaction ∈ arr

/-- Result of `SQL_XID_ALIVE`: the pids of the rows passing `aliveFilter`. -/
def xidAlivePids (selfPid : Nat) (arr : List String) (rows : List LockRow) : List Nat :=
  (rows.filter (aliveFilter selfPid arr)).map (·.pid)

/-- A row is the bgwriter sentinel when its virtual-xid pair is
`('1/1', '-1/0')`. -/
def isSentinel (r : LockRow) : Bool :=
  r.virtualxid = "1/1" ∧ r.virtualtransaction = "-1/0"

/-! ### `repack_one_database` (lines 229-407)

Version probe, session setup, target enumeration, per-row materialization
into a `RepackTable`, and the hand-off to `repack_one_table`. -/

/-- Result of the probe query `select repack.version(), repack.version_sql()`:
either a row of (library version, extension version), or an error carrying
its sqlstate and the connection's error message. -/
inductive ProbeResult
  | ok (libver : String) (extver : String)
  | err (sqlstate : String) (errorMessage : String)
  deriving DecidableEq, Repr

/-- `SQLSTATE_INVALID_SCHEMA_NAME` (line 94). -/
def SQLSTATE_INVALID_SCHEMA_NAME : String := "3F000"

/-- `SQLSTATE_QUERY_CANCELED` (line 95). -/
def SQLSTATE_QUERY_CANCELED : String := "57014"

/-- The client version string `buf` of line 251:
`"<PROGRAM_NAME> <PROGRAM_VERSION>"`. -/
def clientVersionString (programName programVersion : String) : String :=
  programName ++ " " ++ programVersion

/-- The errbuf text of lines 258-260 (library version mismatch). -/
def libMismatchMsg (buf libver : String) : String :=
  "program \x27" ++ buf ++ "\x27 does not match database library \x27" ++ libver ++ "\x27"

/-- The errbuf text of lines 269-271 (extension version mismatch). -/
def extMismatchMsg (buf extver : String) : String :=
  "extension \x27" ++ buf ++ "\x27 required, found extension \x27" ++ extver ++ "\x27"

/-- The errbuf text of lines 281-282 and 324-325 (schema repack missing). -/
def notInstalledMsg (programName : String) : String :=
  programName ++ " is not installed in the database"

/-- Lines 245-291: the version gate.  Returns the skip reason (the errbuf
contents) on failure, `none` when both reported versions match the client
string. -/
def versionCheck (programName programVersion : String)
    (probe : ProbeResult) : Option String :=
  match probe with
  | .ok libver extver =>
    let buf := clientVersionString programName programVersion
    if buf ≠ libver then some (libMismatchMsg buf libver)
    else if buf ≠ extver then some (extMismatchMsg buf extver)
    else none
  | .err sqlstate msg =>
    if sqlstate = SQLSTATE_INVALID_SCHEMA_NAME then
      some (notInstalledMsg programName)
    else
      some msg

/-- Lines 303-315: the text of the target-enumeration query.  The
`pkid IS NOT NULL` filter is appended only when no specific table was
requested; the `ckid IS NOT NULL` filter additionally requires that no
user order was given (`!orderby`, the NULL pointer). -/
def tablesQuery (tableArg : Option String) (orderby : Option String) : String :=
  "SELECT * FROM repack.tables WHERE " ++
    (match tableArg with
     | some _ => "relid = $1::regclass"
     | none =>
       "pkid IS NOT NULL" ++
         (if orderby = none then " AND ckid IS NOT NULL" else ""))

/-- One raw row of the `repack.tables` view, in column order.  Nullable
columns are `Option`; `getoid` reads a NULL OID column as `InvalidOid` and
`getstr` reads a NULL text column as the NULL pointer. -/
structure TableRow where
  target_name : String
  target_oid : Option Oid
  target_toast : Option Oid
  target_tidx : Option Oid
  pkid : Option Oid
  ckid : Option Oid
  create_pktype : String
  create_log : String
  create_trigger : String
  enable_trigger : String
  create_table : String
  drop_columns : Option String
  delete_log : String
  lock_table : String
  ckey : Option String
  sql_peek : String
  sql_insert : String
  sql_delete : String
  sql_update : String
  sql_pop : String
  deriving DecidableEq, Repr

/-- The pkid hard-error message of lines 354-356. -/
def pkidErrorMsg (target_name : String) : String :=
  "relation \x22" ++ target_name ++ "\x22 must have a primary key or not-null unique keys"

/-- Lines 339-398, one iteration: materialize a row into a `repack_table`.
`getoid` turns NULL OID columns into 0; a zero `pkid` is a hard error
(`ereport(ERROR)`, lines 353-356) raised before the fragments are even read;
then the `create_table` fragment is post-processed by mode
(`makeCreateTable`, lines 369-390, which hard-errors in CLUSTER mode when
the clustering-key fragment is NULL). -/
def loadRow (orderby : Option String) (r : TableRow) : Except String RepackTable :=
  let pkid := r.pkid.getD InvalidOid
  if pkid = 0 then
    .error (pkidErrorMsg r.target_name)
  else
    match makeCreateTable r.target_name r.create_table r.ckey orderby with
    | .error e => .error e
    | .ok ct =>
      .ok { target_name := r.target_name
            target_oid := r.target_oid.getD InvalidOid
            target_toast := r.target_toast.getD InvalidOid
            target_tidx := r.target_tidx.getD InvalidOid
            pkid := pkid
            ckid := r.ckid.getD InvalidOid
            create_pktype := r.create_pktype
            create_log := r.create_log
            create_trigger := r.create_trigger
            enable_trigger := r.enable_trigger
            create_table := ct
            drop_columns := r.drop_columns
            delete_log := r.delete_log
            lock_table := r.lock_table
            sql_peek := r.sql_peek
            sql_insert := r.sql_insert
            sql_delete := r.sql_delete
            sql_update := r.sql_update
            sql_pop := r.sql_pop }

/-- The per-row loop of lines 339-399: rows are materialized and handed to
`repack_one_table` in order; the first hard error aborts the run
(`ereport(ERROR)` does not return), so the result is the list of jobs
processed before the error, and the error itself, if any. -/
def processRows (orderby : Option String) : List TableRow → List RepackTable × Option String
  | [] => ([], none)
  | r :: rs =>
    match loadRow orderby r with
    | .error e => ([], some e)
    | .ok t =>
      let rest := processRows orderby rs
      (t :: rest.1, rest.2)

/-- Environment of one `repack_one_database` call. -/
structure DbEnv where
  programName : String
  programVersion : String
  probe : ProbeResult
  tableArg : Option String
  orderby : Option String
  enumError : Option (String × String)
  rows : List TableRow

/-- Outcome of `repack_one_database`: the statements issued on the
connection before any per-table work, the skip reason (errbuf when the
function returns false), the jobs handed to `repack_one_table`, and the
hard error that aborted the run, if any. -/
structure DbRun where
  stmts : List Stmt
  skipReason : Option String
  processed : List RepackTable
  hardError : Option String
  deriving DecidableEq, Repr

/-- The probe statement of line 243. -/
def probeStmt : Stmt :=
  ⟨.primary, "select repack.version(), repack.version_sql()"⟩

/-- The three session-setup statements of lines 294-300, issued only after
the version gate passed. -/
def sessionSetupStmts : List Stmt :=
  [⟨.primary, "SET statement_timeout = 0"⟩,
   ⟨.primary, "SET search_path = pg_catalog, pg_temp, public"⟩,
   ⟨.primary, "SET client_min_messages = warning"⟩]

/-- `repack_one_database` (lines 229-407) up to the hand-off of each job to
`repack_one_table`: version gate, session setup, enumeration (whose failure
is reported like the probe failure, lines 318-335), per-row
materialization. -/
def repack_one_database (env : DbEnv) : DbRun :=
  match versionCheck env.programName env.programVersion env.probe with
  | some e => ⟨[probeStmt], some e, [], none⟩
  | none =>
    let pre := [probeStmt] ++ sessionSetupStmts
      ++ [⟨.primary, tablesQuery env.tableArg env.orderby⟩]
    match env.enumError with
    | some (sqlstate, msg) =>
      if sqlstate = SQLSTATE_INVALID_SCHEMA_NAME then
        ⟨pre, some (notInstalledMsg env.programName), [], none⟩
      else
        ⟨pre, some msg, [], none⟩
    | none =>
      let res := processRows env.orderby env.rows
      ⟨pre, none, res.1, res.2⟩

/-! ## Theorems -/

/-- Claim C8: the `create_table` fragment is post-processed exactly by mode:
no user order with a clustering key present gives `create_table` followed by
`" ORDER BY "` and the clustering fragment; no user order and no clustering
key is a hard error naming the relation; an explicit empty order (vacuum-full
mode) uses `create_table` verbatim; a non-empty user order gives
`create_table` followed by `" ORDER BY "` and the user's order string. -/
theorem create_table_postprocessing (name ct : String) (ckey : Option String)
    (orderby : Option String) :
    (orderby = none → ∀ k, ckey = some k →
      makeCreateTable name ct ckey orderby = .ok (ct ++ " ORDER BY " ++ k)) ∧
    (orderby = none → ckey = none →
      makeCreateTable name ct ckey orderby =
        .error ("relation \x22" ++ name ++ "\x22 has no cluster key")) ∧
    (orderby = some "" → makeCreateTable name ct ckey orderby = .ok ct) ∧
    (∀ o, orderby = some o → o ≠ "" →
      makeCreateTable name ct ckey orderby = .ok (ct ++ " ORDER BY " ++ o)) := by
  refine ⟨?_, ?_, ?_, ?_⟩
  · rintro rfl k rfl
    rfl
  · rintro rfl rfl
    rfl
  · rintro rfl
    rfl
  · rintro o rfl ho
    simp [makeCreateTable, ho]

/-- Witness for C8: evaluation at a concrete job in each of the three
successful modes and the error mode. -/
theorem create_table_postprocessing_witness :
    makeCreateTable "t" "CREATE TABLE s AS SELECT * FROM t" (some "ck") none =
      .ok ("CREATE TABLE s AS SELECT * FROM t" ++ " ORDER BY " ++ "ck") ∧
    makeCreateTable "t" "CREATE TABLE s AS SELECT * FROM t" none none =
      .error ("relation \x22" ++ "t" ++ "\x22 has no cluster key") ∧
    makeCreateTable "t" "CREATE TABLE s AS SELECT * FROM t" (some "ck") (some "") =
      .ok "CREATE TABLE s AS SELECT * FROM t" ∧
    makeCreateTable "t" "CREATE TABLE s AS SELECT * FROM t" (some "ck") (some "c2") =
      .ok ("CREATE TABLE s AS SELECT * FROM t" ++ " ORDER BY " ++ "c2") :=
  ⟨(create_table_postprocessing "t" "CREATE TABLE s AS SELECT * FROM t" (some "ck") none).1
      rfl "ck" rfl,
   (create_table_postprocessing "t" "CREATE TABLE s AS SELECT * FROM t" none none).2.1
      rfl rfl,
   (create_table_postprocessing "t" "CREATE TABLE s AS SELECT * FROM t" (some "ck") (some "")).2.2.1
      rfl,
   (create_table_postprocessing "t" "CREATE TABLE s AS SELECT * FROM t" (some "ck") (some "c2")).2.2.2
      "c2" rfl (by decide)⟩

/-- Claim C10: with `--no-order`, the order-by string is unconditionally
replaced by the empty string before any processing, so vacuum-full mode
(`create_table` used verbatim) applies even when `--order-by` was also
supplied, and the combination is not rejected by the argument validation. -/
theorem noorder_overrides_orderby (o : CmdOptions) (s : String) (extraArgs : Nat)
    (hn : o.noorder = true) (_hs : o.orderbyArg = some s) :
    effectiveOrderby o = some "" ∧
    (∀ name ct ckey, makeCreateTable name ct ckey (effectiveOrderby o) = .ok ct) ∧
    (extraArgs ≤ 1 → ¬(o.alldb ∧ o.tableArg.isSome) →
      mainValidate extraArgs o = .ok ()) := by
  refine ⟨by simp [effectiveOrderby, hn], ?_, ?_⟩
  · intro name ct ckey
    simp [effectiveOrderby, hn, makeCreateTable]
  · intro hargs hcomb
    have h2 : ¬ extraArgs ≥ 2 := by omega
    simp [mainValidate, h2, hcomb]

/-- Witness for C10: `--no-order --order-by=c1 --table=t` on one database
argument passes validation and yields vacuum-full mode. -/
theorem noorder_overrides_orderby_witness :
    effectiveOrderby ⟨false, some "t", true, some "c1"⟩ = some "" ∧
    makeCreateTable "t" "CREATE TABLE s AS SELECT"
      (some "ck") (effectiveOrderby ⟨false, some "t", true, some "c1"⟩) =
      .ok "CREATE TABLE s AS SELECT" ∧
    mainValidate 1 ⟨false, some "t", true, some "c1"⟩ = .ok () :=
  ⟨(noorder_overrides_orderby ⟨false, some "t", true, some "c1"⟩ "c1" 1 rfl rfl).1,
   (noorder_overrides_orderby ⟨false, some "t", true, some "c1"⟩ "c1" 1 rfl rfl).2.1
     "t" "CREATE TABLE s AS SELECT" (some "ck"),
   (noorder_overrides_orderby ⟨false, some "t", true, some "c1"⟩ "c1" 1 rfl rfl).2.2
     (by decide) (by decide)⟩

/-- Claim C3: per attempt of `lock_exclusive`, with `d` the elapsed duration:
if `d > wait_timeout` and the server supports session termination
(version ≥ 80400) and `d > 2 × wait_timeout`, the termination query is issued
(as the statement right after BEGIN); otherwise if only `d > wait_timeout`,
the cancel query is issued there; and if `d ≤ wait_timeout` the attempt's
trace is exactly BEGIN, the timeout command and the lock SQL (plus the
ROLLBACK of the cancelled case) — neither query is issued. -/
theorem lock_escalation_thresholds (env : LockEnv) (q : String) (i : Nat) :
    (env.duration i > env.waitTimeout → env.serverVersion ≥ 80400 →
      env.duration i > 2 * env.waitTimeout →
      (attemptTrace env q i)[1]? = some ⟨.primary, terminateQuery⟩) ∧
    (env.duration i > env.waitTimeout →
      ¬(env.serverVersion ≥ 80400 ∧ env.duration i > 2 * env.waitTimeout) →
      (attemptTrace env q i)[1]? = some ⟨.primary, cancelQuery⟩) ∧
    (¬ env.duration i > env.waitTimeout →
      attemptTrace env q i =
        [⟨.primary, "BEGIN ISOLATION LEVEL READ COMMITTED"⟩,
         ⟨.primary, setTimeoutStmt i⟩, ⟨.primary, q⟩]
        ++ (match env.lockResult i with
            | .canceled => [⟨.primary, "ROLLBACK"⟩]
            | _ => [])) := by
  refine ⟨?_, ?_, ?_⟩
  · intro hd hv h2
    have he : escalationQuery env (env.duration i) = some terminateQuery := by
      have h2' : env.duration i > env.waitTimeout * 2 := by omega
      simp [escalationQuery, hd, hv, h2']
    simp [attemptTrace, he]
  · intro hd hno
    have he : escalationQuery env (env.duration i) = some cancelQuery := by
      have hno' : ¬(env.serverVersion ≥ 80400 ∧ env.duration i > env.waitTimeout * 2) := by
        intro h
        exact hno ⟨h.1, by omega⟩
      simp [escalationQuery, hd]
      intro hv h2
      exact absurd ⟨hv, h2⟩ hno'
    simp [attemptTrace, he]
  · intro hd
    have he : escalationQuery env (env.duration i) = none := by
      simp [escalationQuery, hd]
    simp [attemptTrace, he]

/-- Concrete escalation environments used by the witnesses below. -/
def lockEnvTerm : LockEnv :=
  ⟨90000, 60, fun _ => 150, fun _ => .commandOk⟩

/-- Concrete environment in the cancel range: duration 90 with
`wait_timeout = 60` on a 9.0 server. -/
def lockEnvCancel : LockEnv :=
  ⟨90000, 60, fun _ => 90, fun _ => .commandOk⟩

/-- Witness for C3: with `wait_timeout = 60`, duration 150 on a 9.0 server
issues the termination query, duration 90 the cancel query. -/
theorem lock_escalation_thresholds_witness :
    (attemptTrace lockEnvTerm "LOCK TABLE t" 1)[1]? = some ⟨.primary, terminateQuery⟩ ∧
    (attemptTrace lockEnvCancel "LOCK TABLE t" 1)[1]? = some ⟨.primary, cancelQuery⟩ :=
  ⟨(lock_escalation_thresholds lockEnvTerm "LOCK TABLE t" 1).1
      (by decide) (by decide) (by decide),
   (lock_escalation_thresholds lockEnvCancel "LOCK TABLE t" 1).2.1
      (by decide) (by decide)⟩

/-- Claim C4: attempt `i` sets the statement timeout to
`min(1000, i × 100)` milliseconds immediately before issuing the lock SQL;
a 57014 failure rolls the transaction back and the loop continues with the
next attempt; any other failure ends the process with the server's error
(exit status 1); on success the timeout is reset and the function returns
with the attempt's transaction still open (the lock SQL is the attempt's
last statement, followed only by the RESET). -/
theorem lock_attempt_timeout_and_outcomes (env : LockEnv) (q : String) (i fuel : Nat) :
    (∃ k, (attemptTrace env q i)[k]? = some ⟨.primary, setTimeoutStmt i⟩ ∧
      (attemptTrace env q i)[k + 1]? = some ⟨.primary, q⟩ ∧
      setTimeoutStmt i = "SET LOCAL statement_timeout = " ++ toString (min 1000 (i * 100))) ∧
    (env.lockResult i = .canceled →
      (lockLoop env q i (fuel + 1)).2 = (lockLoop env q (i + 1) fuel).2 ∧
      (attemptTrace env q i).getLast? = some ⟨.primary, "ROLLBACK"⟩) ∧
    (∀ msg, env.lockResult i = .otherError msg →
      (lockLoop env q i (fuel + 1)).2 = some (.exited msg)) ∧
    (env.lockResult i = .commandOk →
      (lockLoop env q i (fuel + 1)) =
        (attemptTrace env q i ++ [⟨.primary, "RESET statement_timeout"⟩],
         some (.locked i)) ∧
      (attemptTrace env q i).getLast? = some ⟨.primary, q⟩) := by
  refine ⟨?_, ?_, ?_, ?_⟩
  · rcases he : escalationQuery env (env.duration i) with _ | eq
    · exact ⟨1, by simp [attemptTrace, he], by simp [attemptTrace, he], rfl⟩
    · exact ⟨2, by simp [attemptTrace, he], by simp [attemptTrace, he], rfl⟩
  · intro hc
    refine ⟨by simp [lockLoop, hc], ?_⟩
    rcases he : escalationQuery env (env.duration i) with _ | eq <;>
      simp [attemptTrace, he, hc]
  · intro msg hm
    simp [lockLoop, hm]
  · intro hk
    refine ⟨by simp [lockLoop, hk], ?_⟩
    rcases he : escalationQuery env (env.duration i) with _ | eq <;>
      simp [attemptTrace, he, hk]

/-- Concrete environment for the C4 witness: the first attempt is cancelled
by the statement timeout, the second one succeeds. -/
def lockEnvRetry : LockEnv :=
  ⟨90000, 60, fun _ => 0,
   fun i => if i = 1 then .canceled else .commandOk⟩

/-- Concrete environment whose lock SQL fails with a non-57014 error. -/
def lockEnvFail : LockEnv :=
  ⟨90000, 60, fun _ => 0, fun _ => .otherError "deadlock detected"⟩

/-- Witness for C4: under `lockEnvRetry` the cancelled first attempt ends in
ROLLBACK and retries, the successful second attempt returns `locked 2` with
the RESET appended, and under `lockEnvFail` the process exits with the
server's error. -/
theorem lock_attempt_timeout_and_outcomes_witness :
    ((lockLoop lockEnvRetry "LOCK TABLE t" 1 (1 + 1)).2 =
        (lockLoop lockEnvRetry "LOCK TABLE t" 2 1).2 ∧
      (attemptTrace lockEnvRetry "LOCK TABLE t" 1).getLast? =
        some ⟨.primary, "ROLLBACK"⟩) ∧
    ((lockLoop lockEnvRetry "LOCK TABLE t" 2 (0 + 1)) =
        (attemptTrace lockEnvRetry "LOCK TABLE t" 2 ++
          [⟨.primary, "RESET statement_timeout"⟩], some (.locked 2)) ∧
      (attemptTrace lockEnvRetry "LOCK TABLE t" 2).getLast? =
        some ⟨.primary, "LOCK TABLE t"⟩) ∧
    (lockLoop lockEnvFail "LOCK TABLE t" 1 (0 + 1)).2 =
      some (.exited "deadlock detected") :=
  ⟨(lock_attempt_timeout_and_outcomes lockEnvRetry "LOCK TABLE t" 1 1).2.1 (by decide),
   (lock_attempt_timeout_and_outcomes lockEnvRetry "LOCK TABLE t" 2 0).2.2.2 (by decide),
   (lock_attempt_timeout_and_outcomes lockEnvFail "LOCK TABLE t" 1 0).2.2.1
     "deadlock detected" (by decide)⟩

/-- Concrete environment refuting C9: duration 90 with `wait_timeout = 60`
puts attempt 1 in the cancel range. -/
def lockEnvC9 : LockEnv :=
  ⟨90000, 60, fun _ => 90, fun _ => .commandOk⟩

/-- Concrete table for the cleanup part of the C9 statements. -/
def cleanupTableC9 : RepackTable :=
  ⟨"t", 16385, 0, 0, 16390, 0, "ct", "cl", "ctr", "etr", "cta", none, "dl",
   "LOCK TABLE t", "p", "i", "d", "u", "po"⟩

/-- Counterexample to claim C9: at a concrete attempt in the cancel range it
is false that every cancel/terminate statement runs on the secondary
session — the cancel query is issued on the primary session, as the
statement between the lock-attempt transaction's BEGIN (position 0) and its
lock SQL (position 3); the cleanup hook's statements are likewise all on the
primary session. -/
theorem cancel_on_primary_counterexample :
    ¬(∀ s ∈ attemptTrace lockEnvC9 "LOCK TABLE t" 1,
        s.text = cancelQuery → s.session = Session.secondary) ∧
    (attemptTrace lockEnvC9 "LOCK TABLE t" 1)[0]? =
      some ⟨Session.primary, "BEGIN ISOLATION LEVEL READ COMMITTED"⟩ ∧
    (attemptTrace lockEnvC9 "LOCK TABLE t" 1)[1]? =
      some ⟨Session.primary, cancelQuery⟩ ∧
    (attemptTrace lockEnvC9 "LOCK TABLE t" 1)[3]? =
      some ⟨Session.primary, "LOCK TABLE t"⟩ ∧
    (∀ s ∈ repack_cleanup false cleanupTableC9 ⟨true, true⟩,
      s.session = Session.primary) := by
  decide

/-- Claim C9 as amended: every statement of the lock escalator and of the
cleanup hook is issued on the single primary session (the C client has one
connection), and when the escalation fires, the cancel/terminate query runs
inside the primary session's lock-attempt transaction, between its BEGIN
and the lock SQL. -/
theorem single_session_escalation_amended (env : LockEnv) (q : String) (i : Nat)
    (t : RepackTable) (fatal : Bool) (cenv : CleanupEnv) :
    (∀ s ∈ attemptTrace env q i, s.session = Session.primary) ∧
    (∀ s ∈ repack_cleanup fatal t cenv, s.session = Session.primary) ∧
    (env.duration i > env.waitTimeout →
      (attemptTrace env q i)[0]? =
        some ⟨Session.primary, "BEGIN ISOLATION LEVEL READ COMMITTED"⟩ ∧
      ∃ cq, escalationQuery env (env.duration i) = some cq ∧
        (attemptTrace env q i)[1]? = some ⟨Session.primary, cq⟩ ∧
        (attemptTrace env q i)[3]? = some ⟨Session.primary, q⟩) := by
  refine ⟨?_, ?_, ?_⟩
  · intro s hs
    rcases he : escalationQuery env (env.duration i) with _ | eq <;>
      rcases hr : env.lockResult i with _ | _ | msg <;>
        simp [attemptTrace, he, hr] at hs <;>
          ((rcases hs with rfl | rfl | rfl | rfl | rfl) <;> rfl)
  · intro s hs
    cases fatal with
    | true => simp [repack_cleanup] at hs
    | false =>
      cases hc : cenv.connected with
      | true =>
        simp [repack_cleanup, hc] at hs
        rcases hs with rfl | rfl <;> rfl
      | false =>
        simp [repack_cleanup, hc] at hs
        subst hs
        rfl
  · intro hd
    have he : ∃ cq, escalationQuery env (env.duration i) = some cq := by
      simp [escalationQuery, hd]
    rcases he with ⟨cq, he⟩
    exact ⟨by simp [attemptTrace, he], cq, he,
      by simp [attemptTrace, he], by simp [attemptTrace, he]⟩

/-- Witness for the amended C9 at the concrete cancel-range environment:
the escalation query sits on the primary session between the attempt's
BEGIN and its lock SQL. -/
theorem single_session_escalation_amended_witness :
    (attemptTrace lockEnvCancel "LOCK TABLE t" 1)[0]? =
      some ⟨Session.primary, "BEGIN ISOLATION LEVEL READ COMMITTED"⟩ ∧
    ∃ cq, escalationQuery lockEnvCancel (lockEnvCancel.duration 1) = some cq ∧
      (attemptTrace lockEnvCancel "LOCK TABLE t" 1)[1]? =
        some ⟨Session.primary, cq⟩ ∧
      (attemptTrace lockEnvCancel "LOCK TABLE t" 1)[3]? =
        some ⟨Session.primary, "LOCK TABLE t"⟩ :=
  (single_session_escalation_amended lockEnvCancel "LOCK TABLE t" 1
    cleanupTableC9 false ⟨true, true⟩).2.2 (by decide)

/-- Claim C1: for every job, the copy phase is one transaction — it opens
with `BEGIN ISOLATION LEVEL SERIALIZABLE` (first statement) and closes with
`COMMIT` (last statement) — and inside it the snapshot vxid capture, the
`delete_log` statement and the (post-processed) `create_table` statement
occur at positions `i < j < k` strictly between the BEGIN and the COMMIT;
in particular `delete_log` runs strictly before `create_table` in that same
transaction. -/
theorem copy_phase_order (t : RepackTable) (orderby : Option String) :
    (copyPhase t orderby).head? =
      some ⟨.primary, "BEGIN ISOLATION LEVEL SERIALIZABLE"⟩ ∧
    (copyPhase t orderby).getLast? = some ⟨.primary, "COMMIT"⟩ ∧
    ∃ i j k : Nat, 0 < i ∧ i < j ∧ j < k ∧ k + 1 < (copyPhase t orderby).length ∧
      (copyPhase t orderby)[i]? = some ⟨.primary, SQL_XID_SNAPSHOT⟩ ∧
      (copyPhase t orderby)[j]? = some ⟨.primary, t.delete_log⟩ ∧
      (copyPhase t orderby)[k]? = some ⟨.primary, t.create_table⟩ := by
  rcases hv : vacuumFullMode orderby with _ | _ <;>
    rcases hd : t.drop_columns with _ | d
  · exact ⟨by simp [copyPhase, hv, hd], by simp [copyPhase, hv, hd],
      2, 3, 4, by omega, by omega, by omega, by simp [copyPhase, hv, hd],
      by simp [copyPhase, hv, hd], by simp [copyPhase, hv, hd],
      by simp [copyPhase, hv, hd]⟩
  · exact ⟨by simp [copyPhase, hv, hd], by simp [copyPhase, hv, hd],
      2, 3, 4, by omega, by omega, by omega, by simp [copyPhase, hv, hd],
      by simp [copyPhase, hv, hd], by simp [copyPhase, hv, hd],
      by simp [copyPhase, hv, hd]⟩
  · exact ⟨by simp [copyPhase, hv, hd], by simp [copyPhase, hv, hd],
      3, 4, 5, by omega, by omega, by omega, by simp [copyPhase, hv, hd],
      by simp [copyPhase, hv, hd], by simp [copyPhase, hv, hd],
      by simp [copyPhase, hv, hd]⟩
  · exact ⟨by simp [copyPhase, hv, hd], by simp [copyPhase, hv, hd],
      3, 4, 5, by omega, by omega, by omega, by simp [copyPhase, hv, hd],
      by simp [copyPhase, hv, hd], by simp [copyPhase, hv, hd],
      by simp [copyPhase, hv, hd]⟩

/-- Helper for C2: if the drain loop exits at iteration `m`, then at that
iteration `apply_log` returned 0 and the alive poll returned no rows. -/
lemma drainRun_exit_cond (env : DrainEnv) :
    ∀ fuel nw n m, (drainRun env nw n fuel).2 = some m →
      env.applyResult m = 0 ∧ env.aliveRows m = [] := by
  intro fuel
  induction fuel with
  | zero => intro nw n m h; simp [drainRun] at h
  | succ fuel ih =>
    intro nw n m h
    by_cases ha : env.applyResult n > 0
    · rw [drainRun, if_pos ha] at h
      exact ih nw (n + 1) m h
    · rw [drainRun, if_neg ha] at h
      by_cases hp : (env.aliveRows n).length > 0
      · rw [if_pos hp] at h
        exact ih (env.aliveRows n).length (n + 1) m h
      · rw [if_neg hp] at h
        simp at h
        subst h
        exact ⟨by omega, List.length_eq_zero.mp (by omega)⟩

/-- Helper for C2: as long as at every iteration either `apply_log` returns
a positive count or the alive poll returns rows, the loop never exits —
there is no overall timeout. -/
lemma drainRun_no_timeout (env : DrainEnv)
    (hp : ∀ n, env.applyResult n > 0 ∨ env.aliveRows n ≠ []) :
    ∀ fuel nw n, (drainRun env nw n fuel).2 = none := by
  intro fuel
  induction fuel with
  | zero => intro nw n; simp [drainRun]
  | succ fuel ih =>
    intro nw n
    by_cases ha : env.applyResult n > 0
    · rw [drainRun, if_pos ha]
      exact ih nw (n + 1)
    · rw [drainRun, if_neg ha]
      have hl : (env.aliveRows n).length > 0 := by
        rcases hp n with h | h
        · omega
        · have := List.length_pos.mpr h
          omega
      rw [if_pos hl]
      exact ih (env.aliveRows n).length (n + 1)

/-- Helper for C2: when `apply_log` returns a positive count the loop
repeats immediately with the next iteration. -/
lemma drainRun_apply_continue (env : DrainEnv) (nw n fuel : Nat)
    (ha : env.applyResult n > 0) :
    (drainRun env nw n (fuel + 1)).2 = (drainRun env nw (n + 1) fuel).2 := by
  rw [drainRun, if_pos ha]

/-- Helper for C2: when `apply_log` returns 0 but pre-snapshot transactions
are still alive, the loop sleeps one second and repeats with the next
iteration. -/
lemma drainRun_alive_continue (env : DrainEnv) (nw n fuel : Nat)
    (ha : env.applyResult n = 0) (hl : env.aliveRows n ≠ []) :
    (drainRun env nw n (fuel + 1)).2 =
      (drainRun env (env.aliveRows n).length (n + 1) fuel).2 ∧
    DrainEvent.sleepSec ∈ (drainRun env nw n (fuel + 1)).1 := by
  have ha' : ¬ env.applyResult n > 0 := by omega
  have hl' : (env.aliveRows n).length > 0 := by
    have := List.length_pos.mpr hl
    omega
  constructor
  · rw [drainRun, if_neg ha', if_pos hl']
  · rw [drainRun, if_neg ha', if_pos hl']
    simp

/-- Claim C2: the drain loop exits at iteration `m` only when, at that same
iteration, `apply_log(table, APPLY_COUNT)` returned 0 and the alive poll
returned no rows; a positive apply count repeats at once; rows still alive
cause a one-second sleep and a repeat; and if at every iteration one of the
two conditions fails, the loop runs forever — no overall timeout bounds
it. -/
theorem drain_loop_exit_conditions (env : DrainEnv) :
    (∀ fuel nw n m, (drainRun env nw n fuel).2 = some m →
      env.applyResult m = 0 ∧ env.aliveRows m = []) ∧
    (∀ nw n fuel, env.applyResult n > 0 →
      (drainRun env nw n (fuel + 1)).2 = (drainRun env nw (n + 1) fuel).2) ∧
    (∀ nw n fuel, env.applyResult n = 0 → env.aliveRows n ≠ [] →
      (drainRun env nw n (fuel + 1)).2 =
        (drainRun env (env.aliveRows n).length (n + 1) fuel).2 ∧
      DrainEvent.sleepSec ∈ (drainRun env nw n (fuel + 1)).1) ∧
    ((∀ n, env.applyResult n > 0 ∨ env.aliveRows n ≠ []) →
      ∀ fuel nw n, (drainRun env nw n fuel).2 = none) :=
  ⟨drainRun_exit_cond env,
   fun nw n fuel ha => drainRun_apply_continue env nw n fuel ha,
   fun nw n fuel ha hl => drainRun_alive_continue env nw n fuel ha hl,
   fun hp => drainRun_no_timeout env hp⟩

/-- Concrete drain environment for the C2 witness: one positive batch, one
iteration with a transaction still alive, then convergence at iteration 2. -/
def drainEnvW : DrainEnv :=
  ⟨fun n => if n = 0 then 3 else 0,
   fun n => if n = 1 then [99] else []⟩

/-- Witness for C2: under `drainEnvW` the loop exits at iteration 2, so the
theorem yields that both exit conditions held there; the continuation and
no-timeout conjuncts are exercised at the earlier iterations. -/
theorem drain_loop_exit_conditions_witness :
    (drainEnvW.applyResult 2 = 0 ∧ drainEnvW.aliveRows 2 = []) ∧
    (drainRun drainEnvW 0 0 (2 + 1)).2 = (drainRun drainEnvW 0 1 2).2 ∧
    DrainEvent.sleepSec ∈ (drainRun drainEnvW 0 1 (1 + 1)).1 :=
  ⟨(drain_loop_exit_conditions drainEnvW).1 3 0 0 2 (by decide),
   (drain_loop_exit_conditions drainEnvW).2.1 0 0 2 (by decide),
   ((drain_loop_exit_conditions drainEnvW).2.2.1 0 1 1 (by decide) (by decide)).2⟩

/-- The bgwriter sentinel row itself: pid 42 holding the virtual-xid pair
`('1/1', '-1/0')`. -/
def sentinelRow : LockRow := ⟨42, "virtualxid", "1/1", "-1/0"⟩

/-- A second lock row whose `virtualtransaction` is also `-1/0` but whose
`virtualxid` differs, so it passes the snapshot filter. -/
def strayRow : LockRow := ⟨7, "virtualxid", "2/2", "-1/0"⟩

/-- Counterexample to claim C5: the sentinel pair is not excluded from
`SQL_XID_ALIVE`.  With `pg_locks` holding the sentinel row and a second row
that carries `virtualtransaction = '-1/0'` under a different `virtualxid`,
the snapshot query (which excludes only the exact pair) still accumulates
`-1/0`, and the alive query — which has no exclusion clause of its own —
then matches the sentinel row and returns its pid. -/
theorem xid_alive_sentinel_counterexample :
    isSentinel sentinelRow = true ∧
    xidSnapshotAccum 1 [sentinelRow, strayRow] = ["-1/0"] ∧
    aliveFilter 1 (xidSnapshotAccum 1 [sentinelRow, strayRow]) sentinelRow = true ∧
    sentinelRow.pid ∈
      xidAlivePids 1 (xidSnapshotAccum 1 [sentinelRow, strayRow])
        [sentinelRow, strayRow] := by
  decide

/-- Claim C5 as amended: the sentinel pair is excluded from the snapshot
capture query; the alive polling query has no exclusion of its own — it
matches purely by `virtualtransaction` membership in the captured array —
so `-1/0` can only enter the array through a non-sentinel row, and whenever
no such row exists, no sentinel row is matched by the alive query either. -/
theorem xid_sentinel_exclusion_amended (selfPid : Nat) (rows : List LockRow) :
    (∀ r ∈ rows, isSentinel r = true → snapshotFilter selfPid r = false) ∧
    ("-1/0" ∈ xidSnapshotAccum selfPid rows →
      ∃ r ∈ rows, r.virtualtransaction = "-1/0" ∧ isSentinel r = false) ∧
    ((∀ r ∈ rows, r.virtualtransaction = "-1/0" → isSentinel r = true) →
      ∀ r ∈ rows, isSentinel r = true →
        aliveFilter selfPid (xidSnapshotAccum selfPid rows) r = false) := by
  refine ⟨?_, ?_, ?_⟩
  · intro r _ hsen
    simp [isSentinel] at hsen
    simp [snapshotFilter, hsen.1, hsen.2]
  · intro hmem
    simp [xidSnapshotAccum] at hmem
    rcases hmem with ⟨r, ⟨hr, hf⟩, hv⟩
    refine ⟨r, hr, hv, ?_⟩
    simp [snapshotFilter] at hf
    simp [isSentinel, hv]
    rcases hf.2.2 with hx | hx
    · exact hx
    · exact absurd hv hx
  · intro hall r hr hsen
    have hv : r.virtualtransaction = "-1/0" := by
      simp [isSentinel] at hsen
      exact hsen.2
    have hnot : "-1/0" ∉ xidSnapshotAccum selfPid rows := by
      intro hmem
      simp [xidSnapshotAccum] at hmem
      rcases hmem with ⟨r2, ⟨hr2, hf2⟩, hv2⟩
      have hsen2 := hall r2 hr2 hv2
      simp [isSentinel] at hsen2
      simp [snapshotFilter, hsen2.1, hv2] at hf2
    simp [aliveFilter, hv]
    intro _ _
    exact fun hmem => hnot (by simpa [hv] using hmem)

/-- Witness for the amended C5: with the sentinel row as the only carrier of
`virtualtransaction = '-1/0'`, the alive filter rejects it. -/
theorem xid_sentinel_exclusion_amended_witness :
    aliveFilter 1 (xidSnapshotAccum 1 [sentinelRow]) sentinelRow = false :=
  (xid_sentinel_exclusion_amended 1 [sentinelRow]).2.2
    (by decide) sentinelRow (by decide) (by decide)

/-- Claim C6: `repack_one_database` processes tables only when both reported
versions equal `"<program-name> <program-version>"`.  On a library-version
mismatch it returns the skip reason naming the client string and the
reported string; likewise for an extension-version mismatch; on sqlstate
3F000 it returns the "not installed" reason; on any other probe error it
returns the server's error message; and in every one of these failure cases
the probe query is the only statement issued (no SET, no DDL) and no table
is processed. -/
theorem version_gate_blocks_statements (env : DbEnv) :
    (∀ libver extver, env.probe = .ok libver extver →
      clientVersionString env.programName env.programVersion ≠ libver →
      repack_one_database env =
        ⟨[probeStmt],
         some (libMismatchMsg (clientVersionString env.programName env.programVersion) libver),
         [], none⟩) ∧
    (∀ libver extver, env.probe = .ok libver extver →
      clientVersionString env.programName env.programVersion = libver →
      clientVersionString env.programName env.programVersion ≠ extver →
      repack_one_database env =
        ⟨[probeStmt],
         some (extMismatchMsg (clientVersionString env.programName env.programVersion) extver),
         [], none⟩) ∧
    (∀ msg, env.probe = .err SQLSTATE_INVALID_SCHEMA_NAME msg →
      repack_one_database env =
        ⟨[probeStmt], some (notInstalledMsg env.programName), [], none⟩) ∧
    (∀ st msg, env.probe = .err st msg → st ≠ SQLSTATE_INVALID_SCHEMA_NAME →
      repack_one_database env = ⟨[probeStmt], some msg, [], none⟩) := by
  refine ⟨?_, ?_, ?_, ?_⟩
  · intro libver extver hp hne
    simp [repack_one_database, versionCheck, hp, hne]
  · intro libver extver hp heq hne
    subst heq
    simp [repack_one_database, versionCheck, hp, hne]
  · intro msg hp
    simp [repack_one_database, versionCheck, hp]
  · intro st msg hp hne
    simp [repack_one_database, versionCheck, hp, hne]

/-- Concrete probe environment for the C6 witness: library reports 1.1.7,
client is 1.1.8. -/
def dbEnvMismatch : DbEnv :=
  ⟨"pg_repack", "1.1.8", .ok "pg_repack 1.1.7" "pg_repack 1.1.7",
   none, none, none, []⟩

/-- Witness for C6: the mismatched library version yields exactly the probe
statement, the skip reason naming both strings, and no processed tables. -/
theorem version_gate_blocks_statements_witness :
    repack_one_database dbEnvMismatch =
      ⟨[probeStmt],
       some (libMismatchMsg (clientVersionString "pg_repack" "1.1.8") "pg_repack 1.1.7"),
       [], none⟩ :=
  (version_gate_blocks_statements dbEnvMismatch).1
    "pg_repack 1.1.7" "pg_repack 1.1.7" rfl (by decide)

/-- Claim C7: a row whose pkid column is NULL (read as OID 0) or zero makes
`loadRow` raise the hard error naming the relation, before the job is built;
hence no job handed to `repack_one_table` ever has `pkid = 0`, in
single-table mode as well — even though the enumeration query applies the
`pkid IS NOT NULL` filter only when no specific table was requested. -/
theorem pkid_zero_hard_error :
    (∀ orderby r, (r : TableRow).pkid = none ∨ r.pkid = some 0 →
      loadRow orderby r = .error (pkidErrorMsg r.target_name)) ∧
    (∀ orderby rows, ∀ t ∈ (processRows orderby rows).1, t.pkid ≠ 0) ∧
    (∀ x orderby, tablesQuery (some x) orderby =
      "SELECT * FROM repack.tables WHERE relid = $1::regclass") ∧
    (∀ orderby, tablesQuery none orderby =
      "SELECT * FROM repack.tables WHERE pkid IS NOT NULL" ++
        (if orderby = none then " AND ckid IS NOT NULL" else "")) ∧
    (∀ env, ∀ t ∈ (repack_one_database env).processed, t.pkid ≠ 0) := by
  have hload : ∀ orderby r, (r : TableRow).pkid = none ∨ r.pkid = some 0 →
      loadRow orderby r = .error (pkidErrorMsg r.target_name) := by
    intro orderby r h
    rcases h with h | h <;> simp [loadRow, h, InvalidOid]
  have hjob : ∀ orderby r job, loadRow orderby r = .ok job → job.pkid ≠ 0 := by
    intro orderby r job hl
    by_cases hz : r.pkid.getD InvalidOid = 0
    · simp [loadRow, hz] at hl
    · rcases hm : makeCreateTable r.target_name r.create_table r.ckey orderby with e | ct
      · simp [loadRow, hz, hm] at hl
      · simp [loadRow, hz, hm] at hl
        subst hl
        simpa using hz
  have hrows : ∀ orderby rows, ∀ t ∈ (processRows orderby rows).1, t.pkid ≠ 0 := by
    intro orderby rows
    induction rows with
    | nil => intro t ht; simp [processRows] at ht
    | cons r rs ih =>
      intro t ht
      rcases hl : loadRow orderby r with e | job
      · simp [processRows, hl] at ht
      · simp [processRows, hl] at ht
        rcases ht with rfl | ht
        · exact hjob orderby r t hl
        · exact ih t ht
  refine ⟨hload, hrows, ?_, ?_, ?_⟩
  · intro x orderby
    rfl
  · intro orderby
    rcases orderby with _ | o <;> rfl
  · intro env t ht
    rcases hv : versionCheck env.programName env.programVersion env.probe with _ | e
    · rcases he : env.enumError with _ | err
      · have hproc : (repack_one_database env).processed =
            (processRows env.orderby env.rows).1 := by
          simp [repack_one_database, hv, he]
        rw [hproc] at ht
        exact hrows env.orderby env.rows t ht
      · rcases err with ⟨st, msg⟩
        by_cases hst : st = SQLSTATE_INVALID_SCHEMA_NAME <;>
          simp [repack_one_database, hv, he, hst] at ht
    · simp [repack_one_database, hv] at ht

/-- Concrete rows for the C7 witness: one without a pkid, one with. -/
def rowNoPk : TableRow :=
  ⟨"nopk", some 10, none, none, none, none, "a", "b", "c", "d", "e", none,
   "f", "g", none, "h", "i", "j", "k", "l"⟩

/-- A row with pkid 5, ready for vacuum-full mode. -/
def rowHasPk : TableRow :=
  ⟨"haspk", some 10, none, none, some 5, none, "a", "b", "c", "d", "e", none,
   "f", "g", none, "h", "i", "j", "k", "l"⟩

/-- The job `processRows` builds from `rowHasPk` in vacuum-full mode. -/
def jobHasPk : RepackTable :=
  ⟨"haspk", 10, 0, 0, 5, 0, "a", "b", "c", "d", "e", none,
   "f", "g", "h", "i", "j", "k", "l"⟩

/-- Witness for C7: the NULL-pkid row errors with the message naming the
relation, and the job processed out of the pkid-5 row has a non-zero
pkid. -/
theorem pkid_zero_hard_error_witness :
    loadRow (some "") rowNoPk = .error (pkidErrorMsg "nopk") ∧
    jobHasPk.pkid ≠ 0 :=
  ⟨(pkid_zero_hard_error).1 (some "") rowNoPk (Or.inl rfl),
   (pkid_zero_hard_error).2.1 (some "") [rowHasPk] jobHasPk (by decide)⟩

end PgRepack
